import Mathlib

/-!
Verification of the geofenced capture form (`src/pages/index.tsx`).

The pure geofence evaluator (`haversine`, the radius constant, the
membership comparison) is embedded over `ℝ`; the stateful React component
(`Form`) is embedded as a state type `FormState` with a step function over
the UI events (field edits, photo capture, location request results,
submit).  The geofence center is imported by the source from a config file
that only provides a constant pair, so all stateful definitions take the
center as an explicit parameter; no claim depends on its value.
-/

namespace GeoForm

open Real

/-- Model of JavaScript `Math.atan2 y x` over the reals (range (-π, π]). -/
noncomputable def atan2 (y x : ℝ) : ℝ :=
  if 0 < x then Real.arctan (y / x)
  else if x < 0 then
    (if 0 ≤ y then Real.arctan (y / x) + Real.pi else Real.arctan (y / x) - Real.pi)
  else
    (if 0 < y then Real.pi / 2 else if y < 0 then -(Real.pi / 2) else 0)

/-- `GEOFENCE_RADIUS_METERS` (source line 4). -/
def GEOFENCE_RADIUS_METERS : ℝ := 150

/-- `haversine` (source lines 6-19): `toRad`, `R = 6371e3`,
`dLat`/`dLon` as radian conversions of the degree differences, the
haversine term `a`, and `c = 2 * atan2 (sqrt a) (sqrt (1 - a))`. -/
noncomputable def haversine (lat1 lon1 lat2 lon2 : ℝ) : ℝ :=
  let toRad : ℝ → ℝ := fun x => x * Real.pi / 180
  let R : ℝ := 6371e3
  let dLat := toRad (lat2 - lat1)
  let dLon := toRad (lon2 - lon1)
  let a :=
    Real.sin (dLat / 2) * Real.sin (dLat / 2) +
      Real.cos (toRad lat1) * Real.cos (toRad lat2) * Real.sin (dLon / 2) *
        Real.sin (dLon / 2)
  let c := 2 * atan2 (Real.sqrt a) (Real.sqrt (1 - a))
  R * c

/-- The spec's formula, stated in the spec's own order: convert each input
to radians first, take the radian differences, form
`a = sin²(Δlat/2) + cos(lat1)·cos(lat2)·sin²(Δlon/2)` and return
`2·R·atan2(√a, √(1−a))` with `R = 6,371,000`. -/
noncomputable def haversineSpecFormula (lat1 lon1 lat2 lon2 : ℝ) : ℝ :=
  let R : ℝ := 6371000
  let phi1 := lat1 * Real.pi / 180
  let phi2 := lat2 * Real.pi / 180
  let lam1 := lon1 * Real.pi / 180
  let lam2 := lon2 * Real.pi / 180
  let dLat := phi2 - phi1
  let dLon := lam2 - lam1
  let a :=
    Real.sin (dLat / 2) ^ 2 + Real.cos phi1 * Real.cos phi2 * Real.sin (dLon / 2) ^ 2
  2 * R * atan2 (Real.sqrt a) (Real.sqrt (1 - a))

lemma atan2_zero_one : atan2 0 1 = 0 := by
  unfold atan2
  rw [if_pos (by norm_num : (0 : ℝ) < 1)]
  norm_num

/-- Shared helper: the haversine distance from a point to itself is `0`. -/
lemma haversine_diag (lat lon : ℝ) : haversine lat lon lat lon = 0 := by
  simp [haversine, atan2_zero_one]

/-- C2: the code's `haversine` agrees, at every input, with the spec's
formula `2·R·atan2(√a, √(1−a))`, `R = 6,371,000`,
`a = sin²(Δlat/2) + cos(lat1)·cos(lat2)·sin²(Δlon/2)`, the deltas being
radian differences of the inputs converted to radians. -/
theorem haversine_eq_spec_formula (lat1 lon1 lat2 lon2 : ℝ) :
    haversine lat1 lon1 lat2 lon2 = haversineSpecFormula lat1 lon1 lat2 lon2 := by
  simp only [haversine, haversineSpecFormula]
  ring_nf

/-- C7: the haversine distance is symmetric in its two coordinate
arguments. -/
theorem haversine_symmetric (lat1 lon1 lat2 lon2 : ℝ) :
    haversine lat1 lon1 lat2 lon2 = haversine lat2 lon2 lat1 lon1 := by
  simp only [haversine]
  have hlat : (lat1 - lat2) * Real.pi / 180 / 2 = -((lat2 - lat1) * Real.pi / 180 / 2) := by
    ring
  have hlon : (lon1 - lon2) * Real.pi / 180 / 2 = -((lon2 - lon1) * Real.pi / 180 / 2) := by
    ring
  rw [hlat, hlon, Real.sin_neg, Real.sin_neg]
  ring_nf

/-- C8: the haversine distance from any coordinate to itself is exactly 0. -/
theorem haversine_self_zero (lat lon : ℝ) : haversine lat lon lat lon = 0 :=
  haversine_diag lat lon

/-- The geofence membership comparison of `getLocation`
(source line 124): `dist <= GEOFENCE_RADIUS_METERS`. -/
def withinGeofence (d : ℝ) : Prop := d ≤ GEOFENCE_RADIUS_METERS

/-- Model of JavaScript `Math.round` (round half up to an integer). -/
noncomputable def jsRound (x : ℝ) : ℤ := ⌊x + 1 / 2⌋

/-- The state of the `Form` component (source lines 107-113): the three
text fields, the image list, the nullable coordinate, the geofence flag,
error message, and the submitting/loading flags.  `geoAllowed` is the
truth value last stored by a location callback. -/
structure FormState where
  name : String
  email : String
  comments : String
  images : List String
  location : Option (ℝ × ℝ)
  geoAllowed : Prop
  geoError : String
  submitting : Bool
  geoLoading : Bool

/-- Initial `useState` values (source lines 107-113). -/
def initState : FormState :=
  { name := "", email := "", comments := "", images := [], location := none,
    geoAllowed := False, geoError := "", submitting := false, geoLoading := false }

/-- Model of JavaScript `String.prototype.trim`: strip leading and
trailing whitespace. -/
def jsTrim (s : String) : String :=
  String.mk (((s.data.dropWhile Char.isWhitespace).reverse.dropWhile
    Char.isWhitespace).reverse)

/-- Model of JavaScript `String.prototype.startsWith`. -/
def jsStartsWith (s p : String) : Bool := p.data.isPrefixOf s.data

/-- `handleCapture` of `Form` (source lines 145-149): append the captured
string only when it is non-empty (truthy) and starts with `data:image`. -/
def handleCapture (images : List String) (img : String) : List String :=
  if img ≠ "" ∧ jsStartsWith img "data:image" then images ++ [img] else images

/-- `isFormValid` (source lines 162-166). -/
def isFormValid (s : FormState) : Bool :=
  (jsTrim s.name != "") && (jsTrim s.email != "") && (jsTrim s.comments != "") &&
    decide (s.images.length > 0)

/-- The submit button's `disabled` expression
(source line 303): `!geoAllowed || submitting || !isFormValid`. -/
def submitDisabled (s : FormState) : Prop :=
  ¬ s.geoAllowed ∨ s.submitting = true ∨ isFormValid s = false

/-- The UI events of the component, each an independent task of the
single-threaded event loop: a field edit (source lines 141-143, 258), a
capture attempt (`CameraCapture.handleCapture`, source lines 57-78, where
`cam = some render` stands for a video element and canvas context being
available and `render` for the canvas composite of the current frame with
the timestamp/coordinate overlay, source lines 59-75), the synchronous
part of `getLocation` (source lines 115-117, run on mount and on the
Retry Location button, source lines 288-302), the two geolocation
callbacks (source lines 119-132), and pressing Submit (source line 153). -/
inductive Event where
  | setName (v : String)
  | setEmail (v : String)
  | setComments (v : String)
  | capture (cam : Option ((ℝ × ℝ) → String))
  | retryLocation
  | locSuccess (lat lon : ℝ)
  | locFailure
  | submitStart

/-- One step of the event loop, parametrized by the geofence center
(`GEOFENCE_CENTER`, imported by the source from a config constant):
 * `capture`: `CameraCapture.handleCapture` returns early unless both the
   video element and the location are present (source line 58); otherwise
   the composite data URL is passed to `Form.handleCapture` (source
   lines 76, 145-149).
 * `retryLocation`: `getLocation` sets loading and clears the error
   (source lines 116-117).
 * `locSuccess`: the success callback (source lines 119-127) stores the
   coordinate, computes the haversine distance to the center, and sets
   the flag and message from `dist <= GEOFENCE_RADIUS_METERS`.
 * `locFailure`: the error callback (source lines 128-132).
 * `submitStart`: `handleSubmit` sets `submitting` (source line 153). -/
noncomputable def step (center : ℝ × ℝ) (s : FormState) (e : Event) : FormState :=
  match e with
  | .setName v => { s with name := v }
  | .setEmail v => { s with email := v }
  | .setComments v => { s with comments := v }
  | .capture cam =>
      match cam, s.location with
      | some render, some p => { s with images := handleCapture s.images (render p) }
      | _, _ => s
  | .retryLocation => { s with geoLoading := true, geoError := "" }
  | .locSuccess lat lon =>
      let dist := haversine lat lon center.1 center.2
      { s with
        location := some (lat, lon),
        geoAllowed := dist ≤ GEOFENCE_RADIUS_METERS,
        geoError :=
          if dist ≤ GEOFENCE_RADIUS_METERS then ""
          else "You are " ++ toString (jsRound dist) ++ "m from the allowed location.",
        geoLoading := false }
  | .locFailure =>
      { s with
        geoError :=
          "Geolocation permission denied or unavailable. Please enable location and try again.",
        geoAllowed := False,
        geoLoading := false }
  | .submitStart => { s with submitting := true }

/-- Run the event loop from the initial state. -/
noncomputable def run (center : ℝ × ℝ) (es : List Event) : FormState :=
  es.foldl (step center) initState

/-- C3: geofence membership is the inclusive comparison `d ≤ 150`: distance
0 and distance exactly 150 are inside, 150.001 is outside, and the flag
stored by a successful location callback is exactly membership of the
computed haversine distance. -/
theorem geofence_membership_inclusive :
    (∀ d : ℝ, withinGeofence d ↔ d ≤ 150) ∧
    withinGeofence 0 ∧ withinGeofence 150 ∧ ¬ withinGeofence 150.001 ∧
    (∀ (c : ℝ × ℝ) (s : FormState) (lat lon : ℝ),
      (step c s (.locSuccess lat lon)).geoAllowed ↔
        withinGeofence (haversine lat lon c.1 c.2)) := by
  refine ⟨fun d => Iff.rfl, ?_, ?_, ?_, fun c s lat lon => Iff.rfl⟩ <;>
    norm_num [withinGeofence, GEOFENCE_RADIUS_METERS]

/-- C4: a failed geolocation request stores a non-empty error message,
sets the geofence flag to false (so the submit gate is disabled), and the
retry action re-issues the request (loading set, error cleared). -/
theorem location_failure_surfaced (c : ℝ × ℝ) (s : FormState) :
    (step c s .locFailure).geoError ≠ "" ∧
    ¬ (step c s .locFailure).geoAllowed ∧
    submitDisabled (step c s .locFailure) ∧
    (step c (step c s .locFailure) .retryLocation).geoLoading = true ∧
    (step c (step c s .locFailure) .retryLocation).geoError = "" := by
  refine ⟨?_, ?_, Or.inl ?_, rfl, rfl⟩ <;> simp [step]

/-- C9: a failed geolocation request modifies only the geofence flag, the
error message and the loading flag; the previously stored coordinate (and
the fields, images and submitting flag) are left unchanged, so an earlier
coordinate remains available after a later failure. -/
theorem location_failure_frame (c : ℝ × ℝ) (s : FormState) :
    (step c s .locFailure).location = s.location ∧
    (step c s .locFailure).name = s.name ∧
    (step c s .locFailure).email = s.email ∧
    (step c s .locFailure).comments = s.comments ∧
    (step c s .locFailure).images = s.images ∧
    (step c s .locFailure).submitting = s.submitting ∧
    ¬ (step c s .locFailure).geoAllowed ∧
    (step c s .locFailure).geoError =
      "Geolocation permission denied or unavailable. Please enable location and try again." ∧
    (step c s .locFailure).geoLoading = false :=
  ⟨rfl, rfl, rfl, rfl, rfl, rfl, fun h => h, rfl, rfl⟩

/-- A state that has already stored a coordinate from a successful
request, used to exhibit that a later failed request does not overwrite
it. -/
noncomputable def staleState : FormState := step (0, 0) initState (.locSuccess 1 2)

/-- C5 counterexample: a failed request does not overwrite the prior
coordinate, so the post-failure coordinate depends on the prior state:
from `staleState` it is still `some (1, 2)`, from the initial state it is
`none`. -/
theorem location_overwrite_cex :
    (step (0, 0) staleState .locFailure).location ≠
      (step (0, 0) initState .locFailure).location ∧
    (step (0, 0) staleState .locFailure).location = some (1, 2) ∧
    (step (0, 0) initState .locFailure).location = none :=
  ⟨by simp [staleState, step, initState], rfl, rfl⟩

/-- C5 amended: a successful request overwrites coordinate, flag, error
and loading with values derived solely from its own result (independent of
the prior state); a failed request overwrites the flag (to false), the
error message and the loading flag independently of the prior state, but
preserves the prior coordinate. -/
theorem location_latest_result (c : ℝ × ℝ) (s t : FormState) (lat lon : ℝ) :
    (step c s (.locSuccess lat lon)).location = some (lat, lon) ∧
    ((step c s (.locSuccess lat lon)).geoAllowed ↔
      (step c t (.locSuccess lat lon)).geoAllowed) ∧
    (step c s (.locSuccess lat lon)).geoError =
      (step c t (.locSuccess lat lon)).geoError ∧
    (step c s (.locSuccess lat lon)).geoLoading =
      (step c t (.locSuccess lat lon)).geoLoading ∧
    (step c s .locFailure).location = s.location ∧
    ¬ (step c s .locFailure).geoAllowed ∧
    (step c s .locFailure).geoError = (step c t .locFailure).geoError ∧
    (step c s .locFailure).geoLoading = (step c t .locFailure).geoLoading :=
  ⟨rfl, Iff.rfl, rfl, rfl, rfl, fun h => h, rfl, rfl⟩

/-- C6: when no coordinate is available the capture attempt is a no-op:
the state is unchanged (no image appended), whatever the camera/canvas
side would have rendered. -/
theorem capture_requires_location (c : ℝ × ℝ) (s : FormState)
    (cam : Option ((ℝ × ℝ) → String)) (h : s.location = none) :
    step c s (.capture cam) = s := by
  cases cam <;> simp [step, h]

/-- Witness for C6 at the initial state with a working camera. -/
theorem capture_requires_location_witness :
    initState.location = none ∧
    step (0, 0) initState
        (.capture (some (fun _ => "data:image/jpeg;base64,AAAA"))) =
      initState :=
  ⟨rfl, capture_requires_location (0, 0) initState _ rfl⟩

lemma isFormValid_iff (s : FormState) :
    isFormValid s = true ↔
      (jsTrim s.name ≠ "" ∧ jsTrim s.email ≠ "" ∧ jsTrim s.comments ≠ "" ∧
        s.images ≠ []) := by
  simp [isFormValid, List.length_pos, and_assoc]

/-- A trace reaching a state in which every field is filled, an image is
captured, the last computed distance (from the center itself) is within
the radius, and the Submit button has just been pressed. -/
def cexEvents : List Event :=
  [.locSuccess 0 0, .setName "Ada", .setEmail "ada@example.com",
   .setComments "hi", .capture (some (fun _ => "data:image/jpeg;base64,AAAA")),
   .submitStart]

/-- The state reached by `cexEvents` for a center at the origin. -/
noncomputable def submittingState : FormState := run (0, 0) cexEvents

/-- C1 counterexample: in `submittingState` the name, email and message
are non-blank, an image exists, and the last computed distance is within
the radius, yet the submit gate is disabled (because `submitting` is
set), refuting the claimed "if and only if". -/
theorem submit_gate_cex :
    jsTrim submittingState.name ≠ "" ∧
    jsTrim submittingState.email ≠ "" ∧
    jsTrim submittingState.comments ≠ "" ∧
    submittingState.images ≠ [] ∧
    submittingState.geoAllowed ∧
    submitDisabled submittingState := by
  refine ⟨by decide, by decide, by decide, by decide, ?_, Or.inr (Or.inl rfl)⟩
  show haversine 0 0 0 0 ≤ GEOFENCE_RADIUS_METERS
  rw [haversine_diag]
  norm_num [GEOFENCE_RADIUS_METERS]

/-- C1 amended: the submit gate is enabled if and only if the three text
fields are non-blank after trimming, the image list is non-empty, the
stored geofence flag (the last computed distance being within the radius)
holds, and additionally no submission is currently in progress. -/
theorem submit_gate_iff (s : FormState) :
    ¬ submitDisabled s ↔
      (jsTrim s.name ≠ "" ∧ jsTrim s.email ≠ "" ∧ jsTrim s.comments ≠ "" ∧
        s.images ≠ [] ∧ s.geoAllowed ∧ s.submitting = false) := by
  simp only [submitDisabled, not_or, not_not, Bool.not_eq_true,
    Bool.not_eq_false, isFormValid_iff]
  tauto

lemma handleCapture_all (imgs : List String) (img : String)
    (h : imgs.all (fun i => jsStartsWith i "data:image") = true) :
    (handleCapture imgs img).all (fun i => jsStartsWith i "data:image") = true := by
  unfold handleCapture
  split
  · rename_i hc
    simp [List.all_append, h, hc.2]
  · exact h

lemma step_images_all (c : ℝ × ℝ) (s : FormState) (e : Event)
    (h : s.images.all (fun i => jsStartsWith i "data:image") = true) :
    ((step c s e).images.all (fun i => jsStartsWith i "data:image")) = true := by
  cases e with
  | capture cam =>
      cases cam with
      | none => cases hl : s.location <;> simpa [step, hl] using h
      | some render =>
          cases hl : s.location with
          | none => simpa [step, hl] using h
          | some p =>
              have := handleCapture_all s.images (render p) h
              simpa [step, hl] using this
  | setName v => exact h
  | setEmail v => exact h
  | setComments v => exact h
  | retryLocation => exact h
  | locSuccess lat lon => exact h
  | locFailure => exact h
  | submitStart => exact h

lemma run_images_all (c : ℝ × ℝ) (es : List Event) :
    ((run c es).images.all (fun i => jsStartsWith i "data:image")) = true := by
  have general : ∀ (l : List Event) (s : FormState),
      s.images.all (fun i => jsStartsWith i "data:image") = true →
        ((l.foldl (step c) s).images.all (fun i => jsStartsWith i "data:image")) = true := by
    intro l
    induction l with
    | nil => intro s h; exact h
    | cons e l ih => intro s h; exact ih _ (step_images_all c s e h)
  exact general es initState rfl

/-- C10: the image list is append-only and filtered: a capture callback
either leaves the list unchanged or appends exactly its argument, and the
appending case requires the argument to be non-empty and start with
`data:image`; consequently, in every state reachable from the initial
state, every stored image starts with `data:image`. -/
theorem images_append_only_filtered :
    (∀ (imgs : List String) (img : String),
        handleCapture imgs img = imgs ∨
          (handleCapture imgs img = imgs ++ [img] ∧ img ≠ "" ∧
            jsStartsWith img "data:image" = true)) ∧
    (∀ (c : ℝ × ℝ) (es : List Event),
        ((run c es).images.all (fun i => jsStartsWith i "data:image")) = true) := by
  constructor
  · intro imgs img
    unfold handleCapture
    split
    · rename_i hc
      exact Or.inr ⟨rfl, hc.1, hc.2⟩
    · exact Or.inl rfl
  · exact run_images_all

end GeoForm
